/-
Verification of the message-log / summarization bot core (telegram_bot.py).

Shallow embedding conventions:
  * A CSV row is `Row`; the `date` column is modelled as an integer count of
    milliseconds (pandas `to_datetime` handles sub-second instants, and the
    dedup check works on `total_seconds()`, so `abs(Δ) < 1` second becomes
    `natAbs Δms < 1000`).
  * The persisted file is `Store`: `missing` (no file), `emptyFile`
    (exists, zero size), `noData` (read raises EmptyDataError), `corrupt`
    (read raises any other parse error), or `table hasMessageCol rows`.
    In a `table` produced by an append the message column is always present;
    `hasMessageCol = false` models an externally written legacy file.
  * The external summarizer is a function argument producing `ApiResponse`;
    `summarize_text` additionally returns the number of outbound calls the
    straight-line control flow performs (the source has no retry loop).
  * Telegram updates are `Update`/`TMsg`/`TUser` with optional fields for
    Python `None`; truthiness of strings is modelled by `isEmpty`.
-/
import Mathlib

namespace TelegramBot

/-- One row of the persisted CSV log (columns user_id, username, chat_id,
message, date); `date` is an instant in integer milliseconds. -/
structure Row where
  user_id : Int
  username : String
  chat_id : Int
  message : String
  date : Int
deriving DecidableEq

/-- State of the persisted CSV file, by the conditions telegram_bot.py
branches on. -/
inductive Store where
  | missing
  | emptyFile
  | noData
  | corrupt
  | table (hasMessageCol : Bool) (rows : List Row)
deriving DecidableEq

/-- The duplicate mask of save_message_to_csv (lines 131-137): same chat_id,
same message text, timestamps strictly less than one second apart. -/
def dupMask (rows : List Row) (c : Int) (t : String) (d : Int) : Bool :=
  rows.any (fun e => e.chat_id == c && (e.message == t && decide ((e.date - d).natAbs < 1000)))

/-- Embedding of save_message_to_csv (lines 120-145).  `Except.error` models
an uncaught parse exception escaping the function (corrupt file: only
FileNotFoundError and EmptyDataError are caught).  On a missing, zero-size or
EmptyDataError file the new single-row frame is written as-is; when the read
succeeds, the dedup check runs only if the frame is non-empty and has a
message column, and a hit returns false without rewriting the file. -/
def save_message_to_csv (r : Row) (s : Store) : Except Unit (Bool × Store) :=
  match s with
  | .missing => .ok (true, .table true [r])
  | .emptyFile => .ok (true, .table true [r])
  | .noData => .ok (true, .table true [r])
  | .corrupt => .error ()
  | .table hasMsg rows =>
    if !rows.isEmpty && hasMsg then
      if dupMask rows r.chat_id r.message r.date then
        .ok (false, .table hasMsg rows)
      else
        .ok (true, .table true (rows ++ [r]))
    else
      .ok (true, .table true (rows ++ [r]))

/-- The dedup key relation used by the store invariant: same conversation,
same text, timestamps strictly within one second of each other. -/
def sameKeyClose (a b : Row) : Prop :=
  a.chat_id = b.chat_id ∧ a.message = b.message ∧ (a.date - b.date).natAbs < 1000

instance (a b : Row) : Decidable (sameKeyClose a b) := by
  unfold sameKeyClose
  infer_instance

/-- No two stored records are duplicates under the dedup key. -/
def DedupInvariant (rows : List Row) : Prop :=
  List.Pairwise (fun a b => ¬ sameKeyClose a b) rows

/-- Rows visible in a store (a readable table), else none. -/
def storeRows (s : Store) : List Row :=
  match s with
  | .table _ rows => rows
  | _ => []

/-- Run a sequence of appends, threading the store (an error leaves the
store as it was, since save writes nothing before raising). -/
def appendAll (rs : List Row) (s : Store) : Store :=
  match rs with
  | [] => s
  | r :: rest =>
    match save_message_to_csv r s with
    | .ok p => appendAll rest p.2
    | .error _ => s

/-- States reachable by appends from an empty system: either still missing,
or a readable table with message column whose rows satisfy the invariant. -/
def GoodStore (s : Store) : Prop :=
  s = Store.missing ∨ ∃ rows, s = Store.table true rows ∧ DedupInvariant rows

/-- Outcome of the load-and-emptiness-check phase of summarize_messages
(lines 216-232). -/
inductive LoadOutcome where
  | emptyResult
  | storeUnavailable
  | okRows (rows : List Row)
deriving DecidableEq

/-- Embedding of lines 216-232 of summarize_messages: a missing file, a
zero-size file, an EmptyDataError, or a dataframe with no rows all reply
with the empty-log message; any other read failure escapes to the generic
error handler (StoreUnavailable). -/
def load_for_summarize (s : Store) : LoadOutcome :=
  match s with
  | .missing => .emptyResult
  | .emptyFile => .emptyResult
  | .noData => .emptyResult
  | .corrupt => .storeUnavailable
  | .table _ rows => if rows.isEmpty then .emptyResult else .okRows rows

/-- Hours to milliseconds, as timedelta(hours=h) against our instant model. -/
def hoursToMs (h : Int) : Int := h * 3600000

/-- The per-conversation partition: df[df["chat_id"] == chat_id] (line 247). -/
def chatPartition (log : List Row) (chatId : Int) : List Row :=
  log.filter (fun r => r.chat_id == chatId)

/-- Ascending-by-date comparison used for the final ordering (line 266). -/
def dateAscLe (a b : Row) : Bool := decide (a.date ≤ b.date)

/-- Descending-by-date comparison used by sort_values(ascending=False). -/
def dateDescLe (a b : Row) : Bool := decide (b.date ≤ a.date)

/-- Embedding of the count-based selection (lines 249-251 and 266): sort the
partition descending by date, take the first n, re-sort ascending. -/
def trailingCount (log : List Row) (chatId : Int) (n : Nat) : List Row :=
  List.mergeSort (List.take n (List.mergeSort (chatPartition log chatId) dateDescLe)) dateAscLe

/-- Embedding of the time-based selection (lines 253-256): keep partition
records with start_time ≤ date ≤ end_time, both ends inclusive. -/
def timeWindow (log : List Row) (chatId : Int) (hours now : Int) : List Row :=
  (chatPartition log chatId).filter
    (fun r => decide (now - hoursToMs hours ≤ r.date) && decide (r.date ≤ now))

/-- The empty string (Python falsy text). -/
def emptyStr : String := ""

/-- Detail of the error raised on an empty or null service response. -/
def emptyResponseDetail : String := "Empty response from Google API"

/-- Leading part of the fixed instruction template of summarize_text. -/
def promptHeaderStr : String :=
  "Please provide a concise summary of the following group chat messages. \n    Focus on the main topics, key points, and important information discussed.\n    \n    Messages:\n    "

/-- Trailing part of the fixed instruction template of summarize_text. -/
def promptFooterStr : String :=
  "\n    \n    Summary:"

/-- Truncation guard of summarize_text (lines 98-100): keep only the first
200000 characters when the text is longer. -/
def truncateForApi (text : List Char) : List Char :=
  if text.length > 200000 then text.take 200000 else text

/-- Prompt construction of summarize_text (lines 102-108). -/
def promptTemplate (text : List Char) : List Char :=
  promptHeaderStr.toList ++ text ++ promptFooterStr.toList

/-- What the external service can do: raise, or return a response whose text
is null or a string. -/
inductive ApiResponse where
  | apiError (detail : String)
  | apiResponse (text : Option String)
deriving DecidableEq

/-- Embedding of summarize_text (lines 94-117).  The first component is the
outcome (`Except.error` models the exception propagating to the caller: the
except block prints and re-raises); the second component counts the outbound
generate_content calls made by the control flow — the source performs a
single call and has no retry loop. -/
def summarize_text (svc : List Char → ApiResponse) (text : List Char) :
    Except String String × Nat :=
  match svc (promptTemplate (truncateForApi text)) with
  | .apiError d => (Except.error d, 1)
  | .apiResponse none => (Except.error emptyResponseDetail, 1)
  | .apiResponse (some s) =>
    if s = emptyStr then (Except.error emptyResponseDetail, 1)
    else (Except.ok s.trim, 1)

/-- Telegram user as seen by sync_messages: numeric id plus optional
username (None or empty modelled through Option/isEmpty). -/
structure TUser where
  id : Int
  username : Option String
deriving DecidableEq

/-- Telegram message as seen by sync_messages; `date` is a transport
timestamp in whole seconds. -/
structure TMsg where
  chat_id : Int
  chat_type : String
  text : Option String
  from_user : Option TUser
  date : Int
deriving DecidableEq

/-- One element of bot.get_updates: may or may not carry a message. -/
structure Update where
  msg : Option TMsg
deriving DecidableEq

/-- The group chat type string. -/
def groupType : String := "group"

/-- The supergroup chat type string. -/
def supergroupType : String := "supergroup"

/-- The command marker string. -/
def slashStr : String := "/"

/-- Fallback author display name. -/
def unknownName : String := "Unknown"

/-- Text admission test of the sync loop: text present, truthy (non-empty)
and not starting with the command marker. -/
def textOk (m : TMsg) : Bool :=
  match m.text with
  | some t => !t.isEmpty && !(List.isPrefixOf slashStr.toList t.toList)
  | none => false

/-- Chat-type admission test of the sync loop. -/
def typeOk (m : TMsg) : Bool :=
  m.chat_type == groupType || m.chat_type == supergroupType

/-- The full candidate filter of sync_messages (lines 311-314): same chat,
group-typed chat, usable text. -/
def isKeptCandidate (chatId : Int) (m : TMsg) : Bool :=
  m.chat_id == chatId && (typeOk m && textOk m)

/-- Whether an update survives the sync loop filter at all. -/
def keptUpdate (chatId : Int) (u : Update) : Bool :=
  match u.msg with
  | some m => isKeptCandidate chatId m
  | none => false

/-- Row built from a kept candidate (lines 316-321): author id with 0
fallback, display name with Unknown fallback, transport seconds converted to
our millisecond instants. -/
def rowOfCandidate (chatId : Int) (m : TMsg) : Row :=
  ⟨(match m.from_user with
    | some u => u.id
    | none => 0),
   (match m.from_user with
    | some u =>
      (match u.username with
       | some n => if n.isEmpty then unknownName else n
       | none => unknownName)
    | none => unknownName),
   chatId,
   m.text.getD emptyStr,
   m.date * 1000⟩

/-- Reply kind of the sync command: wrong chat kind, a synced count (the
source words the reply differently for a zero count but both are success
replies carrying the count), or the degraded warning of the except block. -/
inductive SyncReply where
  | notGroup
  | okCount (n : Nat)
  | degraded
deriving DecidableEq

/-- The update loop of sync_messages (lines 307-325): filter each update,
feed kept candidates through save_message_to_csv, count the saves returning
true; an exception aborts the loop. -/
def syncLoop (chatId : Int) (us : List Update) (acc : Nat) (s : Store) :
    Except Unit (Nat × Store) :=
  match us with
  | [] => .ok (acc, s)
  | u :: rest =>
    match u.msg with
    | none => syncLoop chatId rest acc s
    | some m =>
      if isKeptCandidate chatId m then
        match save_message_to_csv (rowOfCandidate chatId m) s with
        | .error e => .error e
        | .ok p => syncLoop chatId rest (if p.1 then acc + 1 else acc) p.2
      else
        syncLoop chatId rest acc s

/-- Embedding of sync_messages (lines 292-343): group-only guard, transport
fetch whose failure lands in the except block (degraded, non-fatal), the
counting loop, and the count-bearing reply. -/
def sync_messages (chatId : Int) (chatType : String)
    (fetch : Except String (List Update)) (s : Store) : SyncReply × Store :=
  if chatType == groupType || chatType == supergroupType then
    match fetch with
    | .error _ => (SyncReply.degraded, s)
    | .ok us =>
      match syncLoop chatId us 0 s with
      | .error _ => (SyncReply.degraded, s)
      | .ok p => (SyncReply.okCount p.1, p.2)
  else
    (SyncReply.notGroup, s)

/-- Modelled from the spec's words for comparison with the code: candidates
kept by sync are the plain text messages of the target conversation not
beginning with the command marker ("keep only plain text messages belonging
to the target conversation and not beginning with a command prefix"). -/
def specKeep (chatId : Int) (m : TMsg) : Bool :=
  m.chat_id == chatId && textOk m

/-- Modelled from the spec's words: the rows the sync batch should feed to
the store, in batch order. -/
def specKeptRows (chatId : Int) (us : List Update) : List Row :=
  us.filterMap (fun u =>
    match u.msg with
    | some m => if specKeep chatId m then some (rowOfCandidate chatId m) else none
    | none => none)

/-- Modelled from the spec's words: feed each row through append and count
the non-duplicate insertions. -/
def specCountNewAppends (rs : List Row) (s : Store) : Nat × Store :=
  match rs with
  | [] => (0, s)
  | r :: rest =>
    match save_message_to_csv r s with
    | .ok (true, s2) =>
      ((specCountNewAppends rest s2).1 + 1, (specCountNewAppends rest s2).2)
    | .ok (false, s2) => specCountNewAppends rest s2
    | .error _ => (0, s)

/-- Side condition tying a batch to its conversation: any candidate claiming
the target chat id carries a group chat type (updates for one chat id all
describe the same chat, and sync runs in group chats only). -/
def groupConsistent (chatId : Int) (us : List Update) : Bool :=
  us.all (fun u =>
    match u.msg with
    | some m => !(m.chat_id == chatId) || typeOk m
    | none => true)

/-- A sample character for building large blocks. -/
def aChar : Char := 'a'

/-- A padded response text for the summarizer witness. -/
def padText : String := "  a summary  "

/-- A sample plain message text. -/
def helloText : String := "hello there"

/-- A sample command message text. -/
def slashText : String := "/summarize 1day"

/-- A sample author name. -/
def samName : String := "sam"

/-- Demo rows for concrete witnesses. -/
def demoRowA : Row := ⟨7, "sam", 5, "x", 0⟩

/-- A row half a second after demoRowA with the same conversation and text. -/
def demoRowB : Row := ⟨7, "sam", 5, "x", 500⟩

/-- A row exactly one second after demoRowA with the same conversation and
text. -/
def demoRowC : Row := ⟨7, "sam", 5, "x", 1000⟩

/-- A small demo log across two conversations. -/
def demoLog : List Row :=
  [⟨7, "sam", 5, "hi", 0⟩, ⟨8, "kim", 5, "there", 1000⟩,
   ⟨7, "sam", 5, "bye", 2000⟩, ⟨9, "len", 6, "other", 1500⟩]

/-- A well-formed text update in chat 5. -/
def demoUpdGood : Update :=
  ⟨some ⟨5, groupType, some helloText, some ⟨7, some samName⟩, 3⟩⟩

/-- A command update in chat 5 (text starts with the command marker). -/
def demoUpdSlash : Update :=
  ⟨some ⟨5, groupType, some slashText, some ⟨7, some samName⟩, 4⟩⟩

/-- A malformed update: carries a message with no text at all. -/
def demoUpdNoText : Update :=
  ⟨some ⟨5, "group", none, none, 5⟩⟩

/-- A demo batch used by sync witnesses. -/
def demoUpdates : List Update := [demoUpdGood, demoUpdSlash]

theorem dupMask_eq_true_iff (rows : List Row) (c : Int) (t : String) (d : Int) :
    dupMask rows c t d = true ↔
      ∃ e ∈ rows, e.chat_id = c ∧ e.message = t ∧ (e.date - d).natAbs < 1000 := by
  simp [dupMask, List.any_eq_true, Bool.and_eq_true, beq_iff_eq, decide_eq_true_eq]

theorem dupMask_false_of_not_close (rows : List Row) (r : Row)
    (h : ∀ e ∈ rows, ¬ sameKeyClose e r) :
    dupMask rows r.chat_id r.message r.date = false := by
  cases hm : dupMask rows r.chat_id r.message r.date with
  | false => rfl
  | true =>
    obtain ⟨e, he, h1, h2, h3⟩ := (dupMask_eq_true_iff rows r.chat_id r.message r.date).mp hm
    exact absurd ⟨h1, h2, h3⟩ (h e he)

/-- C1: append is idempotent under the dedup key: when the readable log
already holds a record with the same conversation_id, the same text and a
timestamp strictly within one second, a further append returns false and
leaves the stored rows untouched; when no such record exists, the append
returns true and stores the record. -/
theorem save_message_idempotent_dedup (rows : List Row) (r : Row) :
    ((∃ e ∈ rows, e.chat_id = r.chat_id ∧ e.message = r.message ∧
        (e.date - r.date).natAbs < 1000) →
      save_message_to_csv r (Store.table true rows) =
        Except.ok (false, Store.table true rows)) ∧
    ((¬ ∃ e ∈ rows, e.chat_id = r.chat_id ∧ e.message = r.message ∧
        (e.date - r.date).natAbs < 1000) →
      save_message_to_csv r (Store.table true rows) =
        Except.ok (true, Store.table true (rows ++ [r]))) := by
  constructor
  · intro h
    have hmask : dupMask rows r.chat_id r.message r.date = true :=
      (dupMask_eq_true_iff rows r.chat_id r.message r.date).mpr h
    cases rows with
    | nil => simp [dupMask] at hmask
    | cons a as => simp [save_message_to_csv, hmask]
  · intro h
    have hmask : dupMask rows r.chat_id r.message r.date = false := by
      cases hm : dupMask rows r.chat_id r.message r.date with
      | false => rfl
      | true =>
        exact absurd ((dupMask_eq_true_iff rows r.chat_id r.message r.date).mp hm) h
    cases rows with
    | nil => simp [save_message_to_csv]
    | cons a as => simp [save_message_to_csv, hmask]

/-- Witness for C1 at the spec scenario: conversation 5, text x, second
timestamp half a second after the first; the second append is refused and
the rows are unchanged, while the first append of the fresh record in the
empty system returned true. -/
theorem save_message_idempotent_dedup_witness :
    save_message_to_csv demoRowA Store.missing =
      Except.ok (true, Store.table true [demoRowA]) ∧
    save_message_to_csv demoRowB (Store.table true [demoRowA]) =
      Except.ok (false, Store.table true [demoRowA]) := by
  refine ⟨rfl, ?_⟩
  exact (save_message_idempotent_dedup [demoRowA] demoRowB).1 (by decide)

/-- C2 counterexample: a record whose timestamp differs by exactly one
second from a stored record with the same conversation_id and text is NOT
treated as a duplicate — the append returns true and stores it, so the
claimed inclusive (≤ 1 s) invariant fails on the resulting store. -/
theorem dedup_inclusive_band_counterexample :
    save_message_to_csv demoRowC (Store.table true [demoRowA]) =
      Except.ok (true, Store.table true [demoRowA, demoRowC]) ∧
    ¬ save_message_to_csv demoRowC (Store.table true [demoRowA]) =
        Except.ok (false, Store.table true [demoRowA]) ∧
    ¬ (¬ sameKeyClose demoRowA demoRowC →
        (demoRowA.date - demoRowC.date).natAbs ≠ 1000) := by
  refine ⟨rfl, ?_, ?_⟩
  · intro h
    have h2 : Except.ok (ε := Unit) (true, Store.table true [demoRowA, demoRowC]) =
        Except.ok (false, Store.table true [demoRowA]) := h
    simp at h2
  · intro h
    exact absurd (h (by decide)) (by decide)

theorem save_preserves_good (r : Row) (s : Store) (h : GoodStore s) :
    ∃ b s2, save_message_to_csv r s = Except.ok (b, s2) ∧ GoodStore s2 := by
  rcases h with h | ⟨rows, rfl, hinv⟩
  · subst h
    refine ⟨true, Store.table true [r], rfl, Or.inr ⟨[r], rfl, ?_⟩⟩
    simp [DedupInvariant]
  · cases rows with
    | nil =>
      refine ⟨true, Store.table true [r], ?_, Or.inr ⟨[r], rfl, ?_⟩⟩
      · simp [save_message_to_csv]
      · simp [DedupInvariant]
    | cons a as =>
      by_cases hd : dupMask (a :: as) r.chat_id r.message r.date = true
      · exact ⟨false, Store.table true (a :: as), by simp [save_message_to_csv, hd],
          Or.inr ⟨a :: as, rfl, hinv⟩⟩
      · have hd2 : dupMask (a :: as) r.chat_id r.message r.date = false := by
          cases hm : dupMask (a :: as) r.chat_id r.message r.date with
          | false => rfl
          | true => exact absurd hm hd
        refine ⟨true, Store.table true ((a :: as) ++ [r]),
          by simp [save_message_to_csv, hd2], Or.inr ⟨(a :: as) ++ [r], rfl, ?_⟩⟩
        have hall : ∀ e ∈ a :: as, ¬ sameKeyClose e r := by
          intro e he hk
          have : dupMask (a :: as) r.chat_id r.message r.date = true :=
            (dupMask_eq_true_iff (a :: as) r.chat_id r.message r.date).mpr
              ⟨e, he, hk.1, hk.2.1, hk.2.2⟩
          exact absurd this hd
        refine (List.pairwise_append).mpr ⟨hinv, by simp [DedupInvariant], ?_⟩
        intro x hx y hy
        rw [List.mem_singleton] at hy
        subst hy
        exact hall x hx

theorem appendAll_good (rs : List Row) :
    ∀ s, GoodStore s → GoodStore (appendAll rs s) := by
  induction rs with
  | nil =>
    intro s h
    simpa [appendAll] using h
  | cons r rest ih =>
    intro s h
    obtain ⟨b, s2, hsave, h2⟩ := save_preserves_good r s h
    unfold appendAll
    rw [hsave]
    exact ih s2 h2

/-- C2 (amended): the dedup band is strict, not inclusive.  After any
sequence of appends starting from an empty system, no two stored records
share the same (conversation_id, text) with timestamps strictly less than
one second apart; and a record at distance of at least one second from every
same-key stored record (in particular, exactly one second) is appended as a
new record, returning true. -/
theorem dedup_invariant_strict_band (rs : List Row) (rows : List Row) (r : Row) :
    DedupInvariant (storeRows (appendAll rs Store.missing)) ∧
    ((∀ e ∈ rows, ¬ sameKeyClose e r) →
      save_message_to_csv r (Store.table true rows) =
        Except.ok (true, Store.table true (rows ++ [r]))) := by
  constructor
  · have hg : GoodStore (appendAll rs Store.missing) :=
      appendAll_good rs Store.missing (Or.inl rfl)
    rcases hg with hg | ⟨rows2, hg, hinv⟩
    · rw [hg]
      simp [storeRows, DedupInvariant]
    · rw [hg]
      exact hinv
  · intro h
    have hmask := dupMask_false_of_not_close rows r h
    cases rows with
    | nil => simp [save_message_to_csv]
    | cons a as => simp [save_message_to_csv, hmask]

/-- Witness for C2 (amended): the record exactly one second after demoRowA
with the same conversation and text is stored as new. -/
theorem dedup_invariant_strict_band_witness :
    save_message_to_csv demoRowC (Store.table true [demoRowA]) =
      Except.ok (true, Store.table true ([demoRowA] ++ [demoRowC])) :=
  (dedup_invariant_strict_band [] [demoRowA] demoRowC).2 (by decide)

/-- C10: when the persisted log is missing, has zero size, reads as empty,
has no rows, or lacks the message column, append runs no duplicate check: it
unconditionally stores the record and returns true, for every record and
every pre-existing row list (even one full of duplicates). -/
theorem save_message_degenerate_store (r : Row) (s : Store) (rows : List Row) :
    ((s = Store.missing ∨ s = Store.emptyFile ∨ s = Store.noData) →
      save_message_to_csv r s = Except.ok (true, Store.table true [r])) ∧
    save_message_to_csv r (Store.table false rows) =
      Except.ok (true, Store.table true (rows ++ [r])) ∧
    save_message_to_csv r (Store.table true []) =
      Except.ok (true, Store.table true [r]) := by
  refine ⟨?_, ?_, ?_⟩
  · rintro (rfl | rfl | rfl) <;> rfl
  · simp [save_message_to_csv]
  · simp [save_message_to_csv]

/-- Witness for C10: appending to a message-column-less table already
holding an exact copy of the record still returns true and stores a second
copy; appending to a missing store returns true. -/
theorem save_message_degenerate_store_witness :
    save_message_to_csv demoRowA (Store.table false [demoRowA]) =
      Except.ok (true, Store.table true ([demoRowA] ++ [demoRowA])) ∧
    save_message_to_csv demoRowA Store.missing =
      Except.ok (true, Store.table true [demoRowA]) :=
  ⟨(save_message_degenerate_store demoRowA Store.missing [demoRowA]).2.1,
   (save_message_degenerate_store demoRowA Store.missing [demoRowA]).1 (Or.inl rfl)⟩

/-- C4: a missing store, a zero-size store, an empty read, or a table with
no rows gives the empty-log outcome for a summarize request — never
StoreUnavailable, which arises exactly when the backing file exists but
cannot be parsed. -/
theorem load_empty_vs_unavailable :
    load_for_summarize Store.missing = LoadOutcome.emptyResult ∧
    load_for_summarize Store.emptyFile = LoadOutcome.emptyResult ∧
    load_for_summarize Store.noData = LoadOutcome.emptyResult ∧
    (∀ b, load_for_summarize (Store.table b []) = LoadOutcome.emptyResult) ∧
    (∀ s, load_for_summarize s = LoadOutcome.storeUnavailable ↔ s = Store.corrupt) := by
  refine ⟨rfl, rfl, rfl, fun b => rfl, fun s => ?_⟩
  cases s with
  | missing => simp [load_for_summarize]
  | emptyFile => simp [load_for_summarize]
  | noData => simp [load_for_summarize]
  | corrupt => simp [load_for_summarize]
  | table b rows =>
    cases rows with
    | nil => simp [load_for_summarize]
    | cons a as => simp [load_for_summarize]

/-- Witness for C4: the corrupt store is the one giving StoreUnavailable. -/
theorem load_empty_vs_unavailable_witness :
    Store.corrupt = Store.corrupt ∧
    load_for_summarize Store.missing = LoadOutcome.emptyResult :=
  ⟨(load_empty_vs_unavailable.2.2.2.2 Store.corrupt).mp rfl,
   load_empty_vs_unavailable.1⟩

/-- C5: a text block longer than 200000 characters is replaced by exactly
its first 200000 characters before prompt construction, and a block of at
most 200000 characters passes through unchanged. -/
theorem truncateForApi_bound (text : List Char) :
    (text.length > 200000 →
      truncateForApi text = text.take 200000 ∧
      (truncateForApi text).length = 200000) ∧
    (text.length ≤ 200000 → truncateForApi text = text) := by
  constructor
  · intro h
    have he : truncateForApi text = text.take 200000 := by
      unfold truncateForApi
      rw [if_pos h]
    refine ⟨he, ?_⟩
    rw [he, List.length_take]
    omega
  · intro h
    unfold truncateForApi
    rw [if_neg (by omega)]

/-- Witness for C5: a 250000-character block becomes exactly 200000
characters. -/
theorem truncateForApi_bound_witness :
    truncateForApi (List.replicate 250000 aChar) =
      (List.replicate 250000 aChar).take 200000 ∧
    (truncateForApi (List.replicate 250000 aChar)).length = 200000 :=
  (truncateForApi_bound (List.replicate 250000 aChar)).1
    (by simp only [List.length_replicate]; omega)

/-- C6: per invocation the pipeline makes exactly one outbound call; a
remote error propagates with its own detail, an empty or null response
becomes the empty-response error, and a non-empty response is returned with
surrounding whitespace trimmed. -/
theorem summarize_text_outcomes (svc : List Char → ApiResponse) (text : List Char) :
    (summarize_text svc text).2 = 1 ∧
    (∀ d, svc (promptTemplate (truncateForApi text)) = ApiResponse.apiError d →
      (summarize_text svc text).1 = Except.error d) ∧
    (svc (promptTemplate (truncateForApi text)) = ApiResponse.apiResponse none →
      (summarize_text svc text).1 = Except.error emptyResponseDetail) ∧
    (svc (promptTemplate (truncateForApi text)) = ApiResponse.apiResponse (some emptyStr) →
      (summarize_text svc text).1 = Except.error emptyResponseDetail) ∧
    (∀ t, t ≠ emptyStr →
      svc (promptTemplate (truncateForApi text)) = ApiResponse.apiResponse (some t) →
      (summarize_text svc text).1 = Except.ok t.trim) := by
  refine ⟨?_, ?_, ?_, ?_, ?_⟩
  · cases hs : svc (promptTemplate (truncateForApi text)) with
    | apiError d => simp [summarize_text, hs]
    | apiResponse t =>
      cases t with
      | none => simp [summarize_text, hs]
      | some v =>
        by_cases hv : v = emptyStr
        · simp [summarize_text, hs, hv]
        · simp [summarize_text, hs, hv]
  · intro d hs
    simp [summarize_text, hs]
  · intro hs
    simp [summarize_text, hs]
  · intro hs
    simp [summarize_text, hs]
  · intro t ht hs
    simp [summarize_text, hs, ht]

/-- Witness for C6: a constant service returning padded text yields the
trimmed text, with one call made. -/
theorem summarize_text_outcomes_witness :
    (summarize_text (fun _ => ApiResponse.apiResponse (some padText)) [aChar]).1 =
      Except.ok (String.trim padText) ∧
    (summarize_text (fun _ => ApiResponse.apiResponse (some padText)) [aChar]).2 = 1 :=
  ⟨(summarize_text_outcomes (fun _ => ApiResponse.apiResponse (some padText))
      [aChar]).2.2.2.2 padText (by decide) rfl,
   (summarize_text_outcomes (fun _ => ApiResponse.apiResponse (some padText))
      [aChar]).1⟩

theorem dateAscLe_trans : ∀ a b c : Row, dateAscLe a b → dateAscLe b c → dateAscLe a c := by
  intro a b c hab hbc
  simp only [dateAscLe, decide_eq_true_eq] at hab hbc ⊢
  omega

theorem dateAscLe_total : ∀ a b : Row, dateAscLe a b || dateAscLe b a := by
  intro a b
  simp only [dateAscLe, Bool.or_eq_true, decide_eq_true_eq]
  omega

/-- C3: the count-based selection is the descending sort of the partition,
cut to the first n, re-sorted ascending; consequently it has at most n
records and is sorted ascending by timestamp. -/
theorem trailingCount_spec (log : List Row) (chatId : Int) (n : Nat) (hn : 1 ≤ n) :
    trailingCount log chatId n =
      List.mergeSort (List.take n (List.mergeSort (chatPartition log chatId) dateDescLe))
        dateAscLe ∧
    (trailingCount log chatId n).length ≤ n ∧
    (trailingCount log chatId n).Pairwise (fun a b => a.date ≤ b.date) := by
  refine ⟨rfl, ?_, ?_⟩
  · simp only [trailingCount, List.length_mergeSort, List.length_take]
    omega
  · have hs := List.sorted_mergeSort dateAscLe_trans dateAscLe_total
      (List.take n (List.mergeSort (chatPartition log chatId) dateDescLe))
    refine List.Pairwise.imp ?_ hs
    intro a b hab
    simpa [dateAscLe, decide_eq_true_eq] using hab

/-- Witness for C3 on the demo log: the last two records of conversation 5
form a result of length at most 2, sorted ascending. -/
theorem trailingCount_spec_witness :
    (trailingCount demoLog 5 2).length ≤ 2 ∧
    (trailingCount demoLog 5 2).Pairwise (fun a b => a.date ≤ b.date) :=
  ⟨(trailingCount_spec demoLog 5 2 (by decide)).2.1,
   (trailingCount_spec demoLog 5 2 (by decide)).2.2⟩

/-- C7: for a positive hour count the time-based selection holds exactly the
log records of the conversation whose timestamp lies in the closed interval
from now minus h hours to now, both endpoints included. -/
theorem timeWindow_spec (log : List Row) (chatId : Int) (hours now : Int)
    (hpos : 0 < hours) :
    ∀ r : Row, r ∈ timeWindow log chatId hours now ↔
      (r ∈ log ∧ r.chat_id = chatId ∧
        now - hoursToMs hours ≤ r.date ∧ r.date ≤ now) := by
  intro r
  simp only [timeWindow, chatPartition, List.mem_filter, Bool.and_eq_true,
    decide_eq_true_eq, beq_iff_eq]
  constructor
  · rintro ⟨⟨hmem, hcid⟩, hlo, hhi⟩
    exact ⟨hmem, hcid, hlo, hhi⟩
  · rintro ⟨hmem, hcid, hlo, hhi⟩
    exact ⟨⟨hmem, hcid⟩, hlo, hhi⟩

/-- Witness for C7: the boundary record exactly 24 hours old is inside the
window, and a record of another conversation is not. -/
theorem timeWindow_spec_witness :
    demoRowA ∈ timeWindow [demoRowA] 5 24 86400000 ∧
    ¬ ⟨9, samName, 6, "other", 1500⟩ ∈ timeWindow demoLog 5 24 86400000 :=
  ⟨(timeWindow_spec [demoRowA] 5 24 86400000 (by decide) demoRowA).mpr
    (by refine ⟨by decide, by decide, by decide, by decide⟩),
   fun h => by
     have h2 := (timeWindow_spec demoLog 5 24 86400000 (by decide)
       ⟨9, samName, 6, "other", 1500⟩).mp h
     exact absurd h2.2.1 (by decide)⟩

theorem save_not_corrupt (r : Row) (s : Store) (hs : s ≠ Store.corrupt) :
    ∃ b s2, save_message_to_csv r s = Except.ok (b, s2) ∧ s2 ≠ Store.corrupt := by
  cases s with
  | corrupt => exact absurd rfl hs
  | missing => exact ⟨true, Store.table true [r], rfl, by simp⟩
  | emptyFile => exact ⟨true, Store.table true [r], rfl, by simp⟩
  | noData => exact ⟨true, Store.table true [r], rfl, by simp⟩
  | table hasMsg rows =>
    by_cases hc : (!rows.isEmpty && hasMsg) = true
    · by_cases hd : dupMask rows r.chat_id r.message r.date = true
      · exact ⟨false, Store.table hasMsg rows, by simp [save_message_to_csv, hc, hd], by simp⟩
      · refine ⟨true, Store.table true (rows ++ [r]), ?_, by simp⟩
        simp only [save_message_to_csv, hc, if_true]
        rw [if_neg hd]
    · refine ⟨true, Store.table true (rows ++ [r]), ?_, by simp⟩
      simp only [save_message_to_csv]
      rw [if_neg hc]

theorem kept_eq_specKeep (chatId : Int) (m : TMsg)
    (hg : (!(m.chat_id == chatId) || typeOk m) = true) :
    isKeptCandidate chatId m = specKeep chatId m := by
  unfold isKeptCandidate specKeep
  cases hc : (m.chat_id == chatId) with
  | false => simp
  | true =>
    rw [hc] at hg
    simp only [Bool.not_true, Bool.false_or] at hg
    simp [hg]

theorem syncLoop_eq_spec (chatId : Int) :
    ∀ (us : List Update) (acc : Nat) (s : Store),
      s ≠ Store.corrupt → groupConsistent chatId us = true →
      syncLoop chatId us acc s =
        Except.ok (acc + (specCountNewAppends (specKeptRows chatId us) s).1,
                   (specCountNewAppends (specKeptRows chatId us) s).2) := by
  intro us
  induction us with
  | nil =>
    intro acc s hs hg
    simp [syncLoop, specKeptRows, specCountNewAppends]
  | cons u rest ih =>
    intro acc s hs hg
    have hg2 : (match u.msg with
        | some m => !(m.chat_id == chatId) || typeOk m
        | none => true) = true ∧ groupConsistent chatId rest = true := by
      simpa [groupConsistent, List.all_cons] using hg
    cases hmsg : u.msg with
    | none =>
      have hrows : specKeptRows chatId (u :: rest) = specKeptRows chatId rest := by
        simp [specKeptRows, List.filterMap_cons, hmsg]
      rw [hrows]
      simp only [syncLoop, hmsg]
      exact ih acc s hs hg2.2
    | some m =>
      have hgm : (!(m.chat_id == chatId) || typeOk m) = true := by
        have := hg2.1
        rw [hmsg] at this
        exact this
      have hks : isKeptCandidate chatId m = specKeep chatId m := kept_eq_specKeep chatId m hgm
      cases hk : isKeptCandidate chatId m with
      | false =>
        have hrows : specKeptRows chatId (u :: rest) = specKeptRows chatId rest := by
          simp [specKeptRows, List.filterMap_cons, hmsg, ← hks, hk]
        rw [hrows]
        simp only [syncLoop, hmsg, hk, Bool.false_eq_true, if_false]
        exact ih acc s hs hg2.2
      | true =>
        have hrows : specKeptRows chatId (u :: rest) =
            rowOfCandidate chatId m :: specKeptRows chatId rest := by
          simp [specKeptRows, List.filterMap_cons, hmsg, ← hks, hk]
        rw [hrows]
        obtain ⟨b, s2, hsave, hs2⟩ := save_not_corrupt (rowOfCandidate chatId m) s hs
        simp only [syncLoop, hmsg, hk, if_true]
        rw [hsave]
        simp only
        rw [ih (if b then acc + 1 else acc) s2 hs2 hg2.2]
        cases b with
        | true =>
          simp only [specCountNewAppends, hsave, if_true]
          have harith : acc + 1 + (specCountNewAppends (specKeptRows chatId rest) s2).1 =
              acc + ((specCountNewAppends (specKeptRows chatId rest) s2).1 + 1) := by
            omega
          rw [harith]
        | false =>
          simp [specCountNewAppends, hsave]

/-- C8: with a readable store and a batch whose candidates for the target
chat are group messages, sync filters out non-text, other-conversation and
command-marked candidates, feeds every remaining candidate through the
append path in order, and replies with exactly the number of appends that
returned true, alongside the store those appends produced. -/
theorem sync_messages_eq_spec (chatId : Int) (us : List Update) (s : Store)
    (hs : s ≠ Store.corrupt) (hg : groupConsistent chatId us = true) :
    sync_messages chatId groupType (Except.ok us) s =
      (SyncReply.okCount (specCountNewAppends (specKeptRows chatId us) s).1,
       (specCountNewAppends (specKeptRows chatId us) s).2) := by
  simp only [sync_messages]
  rw [if_pos (by decide), syncLoop_eq_spec chatId us 0 s hs hg]
  simp

/-- Witness for C8: a batch holding one good text update and one command
update in chat 5 over an empty system syncs exactly one record. -/
theorem sync_messages_eq_spec_witness :
    sync_messages 5 groupType (Except.ok demoUpdates) Store.missing =
      (SyncReply.okCount (specCountNewAppends (specKeptRows 5 demoUpdates) Store.missing).1,
       (specCountNewAppends (specKeptRows 5 demoUpdates) Store.missing).2) ∧
    (specCountNewAppends (specKeptRows 5 demoUpdates) Store.missing).1 = 1 :=
  ⟨sync_messages_eq_spec 5 demoUpdates Store.missing (by decide) (by decide),
   by decide⟩

theorem syncLoop_skip_unkept (chatId : Int) (bad : Update)
    (hbad : keptUpdate chatId bad = false) :
    ∀ (pre post : List Update) (acc : Nat) (s : Store),
      syncLoop chatId (pre ++ bad :: post) acc s = syncLoop chatId (pre ++ post) acc s := by
  intro pre
  induction pre with
  | nil =>
    intro post acc s
    simp only [List.nil_append]
    cases hmsg : bad.msg with
    | none => simp [syncLoop, hmsg]
    | some m =>
      have hk : isKeptCandidate chatId m = false := by
        have := hbad
        unfold keptUpdate at this
        rw [hmsg] at this
        exact this
      simp [syncLoop, hmsg, hk]
  | cons u pre2 ih =>
    intro post acc s
    simp only [List.cons_append]
    cases hmsg : u.msg with
    | none =>
      simp only [syncLoop, hmsg]
      exact ih post acc s
    | some m =>
      cases hk : isKeptCandidate chatId m with
      | false =>
        simp only [syncLoop, hmsg, hk, Bool.false_eq_true, if_false]
        exact ih post acc s
      | true =>
        simp only [syncLoop, hmsg, hk, if_true]
        cases hsave : save_message_to_csv (rowOfCandidate chatId m) s with
        | error e => rfl
        | ok p => exact ih post (if p.1 then acc + 1 else acc) p.2

/-- C9: a candidate rejected by the per-record filter (no message, no text,
or a command-marked text) is skipped in place — the batch result, count and
store are those of the batch without it — and a total transport failure
comes back as the degraded reply with the store untouched, not as a raised
error. -/
theorem sync_partial_failure_isolation (chatId : Int) (pre post : List Update)
    (bad : Update) (s : Store) (d : String)
    (hbad : keptUpdate chatId bad = false) :
    sync_messages chatId groupType (Except.ok (pre ++ bad :: post)) s =
      sync_messages chatId groupType (Except.ok (pre ++ post)) s ∧
    sync_messages chatId groupType (Except.error d) s = (SyncReply.degraded, s) := by
  constructor
  · simp only [sync_messages]
    rw [syncLoop_skip_unkept chatId bad hbad pre post 0 s]
  · simp only [sync_messages]
    rw [if_pos (by decide)]

/-- Witness for C9: dropping the no-text update from a batch around it
changes nothing, and a transport error on the same store is degraded. -/
theorem sync_partial_failure_isolation_witness :
    sync_messages 5 groupType (Except.ok ([demoUpdGood] ++ demoUpdNoText :: [demoUpdSlash]))
        Store.missing =
      sync_messages 5 groupType (Except.ok ([demoUpdGood] ++ [demoUpdSlash])) Store.missing ∧
    sync_messages 5 groupType (Except.error emptyStr) Store.missing =
      (SyncReply.degraded, Store.missing) :=
  sync_partial_failure_isolation 5 [demoUpdGood] [demoUpdSlash] demoUpdNoText
    Store.missing emptyStr (by decide)

end TelegramBot
